import Mathlib

/-!
Verification of the geolocation enrichment pipeline of mbhillrn/wcurgui.

The pipeline exists in three near-duplicate variants in the repository:
* `src/scripts/peerlist.py` — persistent SQLite store (`peers_geo` table) with a
  retry-backoff policy, a pending-lookup set, a lookup queue and a single
  background worker;
* `src/web/MBCoreServer.py` — persistent `geo_cache` table plus an in-memory
  session cache; the worker consults the persistent table before calling the
  external API;
* `src/web/server.py` — session-cache-only variant.

Each Python function is translated directly.  SQLite tables and Python dicts
keyed by a string are both modelled as association lists `List (String × α)`
with at most one binding per key (both have unique keys: `ip TEXT PRIMARY KEY`
resp. dict semantics).  `REAL` columns (latitude/longitude) are modelled as
`Int`: the only operations the code performs on them are storing and comparing
against the literal `0`, which are exact.  `INTEGER` 0/1 flag columns written
as `1 if x else 0` are modelled as the truth value they encode.  Unix
timestamps (`int(time.time())`) are passed in explicitly as a `now : Nat`
parameter.  External effects (the HTTP geo API call, `time.sleep`) are
modelled by an outcome parameter and by counters `apiCalls` / `sleeps` on the
worker state, so that "makes an external call" and "sleeps the inter-request
delay" are observable in the model.
-/

-- ═══════════════════════════════════════════════════════════════════════════
-- Association-list model of SQLite tables and Python dicts (unique keys)
-- ═══════════════════════════════════════════════════════════════════════════

/-- Lookup by key: `SELECT * FROM t WHERE ip = ?` / `d.get(k)`. -/
def alookup {α : Type} (m : List (String × α)) (k : String) : Option α :=
  match m.find? (fun e => e.fst == k) with
  | some e => some e.snd
  | none => none

/-- In-place row update: `UPDATE t SET ... WHERE ip = ?` applied to the
(unique) row with the given key. -/
def aupdate {α : Type} (m : List (String × α)) (k : String) (f : α → α) :
    List (String × α) :=
  m.map (fun e => if e.fst == k then (e.fst, f e.snd) else e)

/-- Dict assignment `d[k] = v`: replaces any existing binding for `k`. -/
def aset {α : Type} (m : List (String × α)) (k : String) (v : α) :
    List (String × α) :=
  (k, v) :: m.filter (fun e => e.fst != k)

/-- Dict removal `d.pop(k, default)` (the removal part): drops the binding. -/
def aremove {α : Type} (m : List (String × α)) (k : String) :
    List (String × α) :=
  m.filter (fun e => e.fst != k)

-- ═══════════════════════════════════════════════════════════════════════════
-- src/scripts/peerlist.py — configuration constants (lines 33-51)
-- ═══════════════════════════════════════════════════════════════════════════

/-- Geo status code `GEO_OK = 0`. -/
def GEO_OK : Nat := 0

/-- Geo status code `GEO_PRIVATE = 1`. -/
def GEO_PRIVATE : Nat := 1

/-- Geo status code `GEO_UNAVAILABLE = 2`. -/
def GEO_UNAVAILABLE : Nat := 2

/-- `RETRY_INTERVALS = [86400, 259200, 604800, 604800]` — retry intervals in
seconds for `GEO_UNAVAILABLE` (1 day, 3 days, 7 days, 7 days). -/
def RETRY_INTERVALS : List Nat := [86400, 259200, 604800, 604800]

-- ═══════════════════════════════════════════════════════════════════════════
-- src/scripts/peerlist.py — the peers_geo table (init_database, lines 173-205)
-- ═══════════════════════════════════════════════════════════════════════════

/-- One row of the `peers_geo` table (`ip` is the primary key and is the
association-list key, so it is not repeated here). -/
structure GeoRow where
  network_type : String
  geo_status : Nat
  geo_retry_count : Nat
  geo_last_lookup : Nat
  country : String
  country_code : String
  region : String
  region_name : String
  city : String
  district : String
  lat : Int
  lon : Int
  isp : String
  as_info : String
  hosting : Nat
  first_seen : Nat
  last_seen : Nat
  connection_count : Nat
deriving Repr, DecidableEq

/-- The `peers_geo` table, keyed by IP. -/
abbrev GeoDB := List (String × GeoRow)

/-- `get_peer_geo(ip)` (peerlist.py lines 213-220): fetch the cached row. -/
def get_peer_geo (db : GeoDB) (ip : String) : Option GeoRow :=
  alookup db ip

/-- `should_retry_geo(ip)` (peerlist.py lines 223-238).  `now` stands for the
`int(time.time())` read inside the function; `elapsed` is computed in `Int`
because the Python subtraction is signed. -/
def should_retry_geo (db : GeoDB) (now : Nat) (ip : String) : Bool :=
  match get_peer_geo db ip with
  | none => true
  | some geo =>
    if geo.geo_status == GEO_OK || geo.geo_status == GEO_PRIVATE then
      false
    else
      let interval_idx := min geo.geo_retry_count (RETRY_INTERVALS.length - 1)
      let interval := RETRY_INTERVALS.getD interval_idx 0
      decide ((now : Int) - (geo.geo_last_lookup : Int) ≥ (interval : Int))

/-- The geo-field arguments of `upsert_peer_geo` with the source's Python
default values (`"" , 0`) available as `emptyGeoInput`. -/
structure GeoInput where
  country : String
  country_code : String
  region : String
  region_name : String
  city : String
  district : String
  lat : Int
  lon : Int
  isp : String
  as_info : String
  hosting : Nat
deriving Repr, DecidableEq

/-- The Python default arguments of `upsert_peer_geo` (all blank / zero). -/
def emptyGeoInput : GeoInput :=
  { country := "", country_code := "", region := "", region_name := ""
    city := "", district := "", lat := 0, lon := 0
    isp := "", as_info := "", hosting := 0 }

/-- `COALESCE(NULLIF(excluded.x, ''), x)` for a text column. -/
def coalesceBlank (incoming stored : String) : String :=
  if incoming = "" then stored else incoming

/-- The `ON CONFLICT(ip) DO UPDATE SET` clause of `upsert_peer_geo`
(peerlist.py lines 258-274), applied to the existing row.  Columns absent from
the SET list (`network_type`, `first_seen`) keep their stored value; the bound
parameter in the retry-count CASE is `GEO_UNAVAILABLE` (line 278). -/
def upsertUpdateRow (old : GeoRow) (geo_status : Nat) (g : GeoInput)
    (now : Nat) : GeoRow :=
  { network_type := old.network_type
    geo_status := geo_status
    geo_retry_count :=
      if geo_status == GEO_UNAVAILABLE then old.geo_retry_count + 1 else 0
    geo_last_lookup := now
    country := coalesceBlank g.country old.country
    country_code := coalesceBlank g.country_code old.country_code
    region := coalesceBlank g.region old.region
    region_name := coalesceBlank g.region_name old.region_name
    city := coalesceBlank g.city old.city
    district := coalesceBlank g.district old.district
    lat := if g.lat != 0 then g.lat else old.lat
    lon := if g.lon != 0 then g.lon else old.lon
    isp := coalesceBlank g.isp old.isp
    as_info := coalesceBlank g.as_info old.as_info
    hosting := g.hosting
    first_seen := old.first_seen
    last_seen := now
    connection_count := old.connection_count + 1 }

/-- The `INSERT` row of `upsert_peer_geo` for a fresh IP: `geo_retry_count` is
not in the column list, so it takes the schema default `0`;
`connection_count` is inserted as the literal `1`; `first_seen`, `last_seen`
and `geo_last_lookup` are all bound to `now`. -/
def upsertInsertRow (network_type : String) (geo_status : Nat) (g : GeoInput)
    (now : Nat) : GeoRow :=
  { network_type := network_type
    geo_status := geo_status
    geo_retry_count := 0
    geo_last_lookup := now
    country := g.country
    country_code := g.country_code
    region := g.region
    region_name := g.region_name
    city := g.city
    district := g.district
    lat := g.lat
    lon := g.lon
    isp := g.isp
    as_info := g.as_info
    hosting := g.hosting
    first_seen := now
    last_seen := now
    connection_count := 1 }

/-- `upsert_peer_geo(ip, network_type, geo_status, ...)` (peerlist.py lines
241-281).  `ip` is the primary key, so the `ON CONFLICT` branch fires exactly
when a row for `ip` already exists. -/
def upsert_peer_geo (db : GeoDB) (ip network_type : String) (geo_status : Nat)
    (g : GeoInput) (now : Nat) : GeoDB :=
  match get_peer_geo db ip with
  | none => (ip, upsertInsertRow network_type geo_status g now) :: db
  | some _ => aupdate db ip (fun old => upsertUpdateRow old geo_status g now)

/-- `update_peer_seen(ip)` (peerlist.py lines 284-290):
`UPDATE peers_geo SET last_seen = ? WHERE ip = ?` — a no-op when no row
matches. -/
def update_peer_seen (db : GeoDB) (ip : String) (now : Nat) : GeoDB :=
  aupdate db ip (fun old => { old with last_seen := now })

-- ═══════════════════════════════════════════════════════════════════════════
-- src/scripts/peerlist.py — network utilities (lines 343-369)
-- ═══════════════════════════════════════════════════════════════════════════

/-- Python `s.startswith(pre)`, expressed on the strings' character lists
(Python strings and `String.data` are both code-point sequences). -/
def strStartsWith (s pre : String) : Bool :=
  pre.data.isPrefixOf s.data

/-- Python `s.split('.')` on the character list: splitting on every dot,
keeping empty components (`"".split('.') == ['']`, `"a.".split('.') ==
['a', '']`). -/
def splitDotChars : List Char → List (List Char)
  | [] => [[]]
  | c :: rest =>
    let r := splitDotChars rest
    if c = '.' then [] :: r
    else
      match r with
      | h :: t => (c :: h) :: t
      | [] => [[c]]

/-- Python `int(tok)` for the non-negative decimal tokens that occur in
dotted-quad addresses: all-digit, non-empty; anything else raises in Python
(caught by the caller) and is `none` here. -/
def parseNatDigits (cs : List Char) : Option Nat :=
  if cs ≠ [] ∧ cs.all (fun c => c.isDigit) then
    some (cs.foldl (fun n c => n * 10 + (c.toNat - 48)) 0)
  else none

/-- The `172.16.0.0/12` test of `is_private_ip`: Python reads
`int(ip.split('.')[1])` inside a `try` (a missing second component or a
non-numeric token raises and falls through to `pass`).  A parse failure, or a
negative value, cannot satisfy `16 <= n <= 31` either way. -/
def second_octet_in_private_range (ip : String) : Bool :=
  match (splitDotChars ip.data).drop 1 with
  | [] => false
  | s :: _ =>
    match parseNatDigits s with
    | some n => decide (16 ≤ n ∧ n ≤ 31)
    | none => false

/-- `is_private_ip(ip)` (peerlist.py lines 343-360; the identical function
appears in MBCoreServer.py lines 477-490 and server.py). -/
def is_private_ip (ip : String) : Bool :=
  if strStartsWith ip "10." || strStartsWith ip "192.168." then true
  else if strStartsWith ip "172." && second_octet_in_private_range ip then true
  else if strStartsWith ip "127." || ip == "localhost" then true
  else if strStartsWith ip "fe80:" || ip == "::1" then true
  else false

/-- `is_public_address(network_type, ip)` (peerlist.py lines 363-369;
identical logic in MBCoreServer.py line 493 and server.py line 321). -/
def is_public_address (network_type ip : String) : Bool :=
  (network_type == "ipv4" || network_type == "ipv6") && !is_private_ip ip

-- ═══════════════════════════════════════════════════════════════════════════
-- src/scripts/peerlist.py — fetch_geo_api (lines 395-406)
-- ═══════════════════════════════════════════════════════════════════════════

/-- The fields of the parsed ip-api.com response that peerlist.py reads
(`GEO_API_FIELDS`, line 36).  Each field carries the value that the
corresponding `data.get(key, default)` would return; a key missing from the
response is represented by that default.  `as_info` is the `'as'` key and
`hosting` the truth value of the `'hosting'` key. -/
structure GeoApiData where
  status : String
  country : String
  countryCode : String
  region : String
  regionName : String
  city : String
  district : String
  lat : Int
  lon : Int
  isp : String
  as_info : String
  hosting : Bool
deriving Repr, DecidableEq

/-- What happened on the wire during one `requests.get` call: either some
exception was raised (timeout, connection error, unparseable JSON body), or a
body was parsed into a response dict. -/
inductive ApiOutcome where
  | exception : ApiOutcome
  | response : GeoApiData → ApiOutcome
deriving Repr, DecidableEq

/-- `fetch_geo_api(ip)` (peerlist.py lines 395-406): any exception is caught
and `None` returned; a parsed body is returned only when
`data.get('status') == 'success'`, otherwise `None`.  The same function
appears in MBCoreServer.py lines 620-629 and server.py lines 448-457. -/
def fetch_geo_api (outcome : ApiOutcome) : Option GeoApiData :=
  match outcome with
  | .exception => none
  | .response data => if data.status == "success" then some data else none

-- ═══════════════════════════════════════════════════════════════════════════
-- src/scripts/peerlist.py — pending set, queue and worker (lines 474-531)
-- ═══════════════════════════════════════════════════════════════════════════

/-- The mutable module state of peerlist.py that the lookup pipeline touches:
`pending_lookups` (a Python set, lines 82-83), `geo_queue` (a FIFO, line 74),
the `peers_geo` table, and two observation counters for the external effects
of the worker: `apiCalls` counts `fetch_geo_api` invocations and `sleeps`
counts `time.sleep(GEO_API_DELAY)` executions. -/
structure LookupState where
  pending : List String
  queue : List (String × String)
  db : GeoDB
  apiCalls : Nat
  sleeps : Nat
deriving Repr, DecidableEq

/-- `queue_geo_lookup(ip, network_type)` (peerlist.py lines 518-525): a no-op
when the IP is already pending, otherwise mark pending and enqueue.
MBCoreServer.py lines 734-739 and server.py lines 525-530 are identical. -/
def queue_geo_lookup (s : LookupState) (ip network_type : String) :
    LookupState :=
  if ip ∈ s.pending then s
  else { s with pending := ip :: s.pending
                queue := s.queue ++ [(ip, network_type)] }

/-- Convert a successful API response into the positional arguments that
`geo_lookup_worker` passes to `upsert_peer_geo` (peerlist.py lines 488-501). -/
def workerGeoInput (data : GeoApiData) : GeoInput :=
  { country := data.country
    country_code := data.countryCode
    region := data.region
    region_name := data.regionName
    city := data.city
    district := data.district
    lat := data.lat
    lon := data.lon
    isp := data.isp
    as_info := data.as_info
    hosting := if data.hosting then 1 else 0 }

/-- One iteration of `geo_lookup_worker` (peerlist.py lines 474-515) in which
the dequeue did not time out: pop the head of the queue, call the external
API (unconditionally — `outcome` is what the wire did), upsert the result
(status `GEO_OK` on data, `GEO_UNAVAILABLE` with all-default geo fields on
`None`), discard the IP from the pending set, and sleep the rate-limit delay.
An empty queue models the `queue.Empty` timeout branch (`continue`). -/
def geo_lookup_worker_step (s : LookupState) (now : Nat)
    (outcome : ApiOutcome) : LookupState :=
  match s.queue with
  | [] => s
  | (ip, network_type) :: rest =>
    let db' :=
      match fetch_geo_api outcome with
      | some data =>
          upsert_peer_geo s.db ip network_type GEO_OK (workerGeoInput data) now
      | none =>
          upsert_peer_geo s.db ip network_type GEO_UNAVAILABLE emptyGeoInput now
    { pending := s.pending.filter (fun x => x != ip)
      queue := rest
      db := db'
      apiCalls := s.apiCalls + 1
      sleeps := s.sleeps + 1 }

-- ═══════════════════════════════════════════════════════════════════════════
-- src/scripts/peerlist.py — process_peers, geo-handling of one peer
-- (lines 770-781)
-- ═══════════════════════════════════════════════════════════════════════════

/-- The geo-lookup handling that `process_peers` performs for one peer
(peerlist.py lines 770-781): a public address is enqueued when it has no row
or `should_retry_geo` holds, and otherwise only gets its `last_seen`
refreshed; a non-public address is written directly as a `GEO_PRIVATE` row
(with the Python default geo arguments) when no row exists.  `now` stands for
the `int(time.time())` reads inside the called helpers. -/
def process_peer_geo (s : LookupState) (now : Nat) (network_type ip : String) :
    LookupState :=
  if is_public_address network_type ip then
    if (get_peer_geo s.db ip).isNone || should_retry_geo s.db now ip then
      queue_geo_lookup s ip network_type
    else if (get_peer_geo s.db ip).isSome then
      { s with db := update_peer_seen s.db ip now }
    else s
  else
    if (get_peer_geo s.db ip).isNone then
      { s with db := upsert_peer_geo s.db ip network_type GEO_PRIVATE
                       emptyGeoInput now }
    else s

-- ═══════════════════════════════════════════════════════════════════════════
-- src/web/MBCoreServer.py — the geo_cache table (lines 277-301) and its
-- access functions
-- ═══════════════════════════════════════════════════════════════════════════

namespace MBCore

/-- One row of MBCoreServer.py's `geo_cache` table (`ip TEXT PRIMARY KEY` is
the association-list key).  `REAL` lat/lon are modelled as `Int` and the
`INTEGER` 0/1 flags `mobile`/`proxy`/`hosting` (always written as
`1 if x else 0`) as the truth value they encode. -/
structure GeoCacheRow where
  continent : String
  continentCode : String
  country : String
  countryCode : String
  region : String
  regionName : String
  city : String
  district : String
  zip : String
  lat : Int
  lon : Int
  timezone : String
  utc_offset : Int
  currency : String
  isp : String
  org : String
  as_info : String
  asname : String
  mobile : Bool
  proxy : Bool
  hosting : Bool
  last_updated : Nat
deriving Repr, DecidableEq

/-- The `geo_cache` table, keyed by IP. -/
abbrev GeoCacheDB := List (String × GeoCacheRow)

/-- The parsed ip-api.com response fields MBCoreServer.py requests
(`GEO_API_FIELDS`, line 42).  As in `GeoApiData`, each field holds the value
`data.get(key, default)` would produce; `as_info` is the `'as'` key and
`offset` the `'offset'` key. -/
structure ApiData where
  status : String
  continent : String
  continentCode : String
  country : String
  countryCode : String
  region : String
  regionName : String
  city : String
  district : String
  zip : String
  lat : Int
  lon : Int
  timezone : String
  offset : Int
  currency : String
  isp : String
  org : String
  as_info : String
  asname : String
  mobile : Bool
  proxy : Bool
  hosting : Bool
deriving Repr, DecidableEq

/-- What happened on the wire during MBCoreServer.py's `fetch_geo_api`. -/
inductive ApiOutcome where
  | exception : ApiOutcome
  | response : ApiData → ApiOutcome
deriving Repr, DecidableEq

/-- `fetch_geo_api(ip)` (MBCoreServer.py lines 620-629): identical control
flow to the peerlist.py function, over the richer field set. -/
def fetch_geo_api (outcome : ApiOutcome) : Option ApiData :=
  match outcome with
  | .exception => none
  | .response data => if data.status == "success" then some data else none

/-- `get_geo_from_db(ip)` (MBCoreServer.py lines 354-366): `None` when the geo
database is disabled, otherwise the row for the IP. -/
def get_geo_from_db (enabled : Bool) (db : GeoCacheDB) (ip : String) :
    Option GeoCacheRow :=
  if enabled then alookup db ip else none

/-- The row that `save_geo_to_db` binds (MBCoreServer.py lines 407-431): every
column comes from `data.get(...)` and `last_updated` from `now`.  The
`ON CONFLICT(ip) DO UPDATE SET` clause (lines 385-406) sets every column to
`excluded.<column>` — the update writes exactly this same row, with no
coalescing. -/
def rowOfApi (data : ApiData) (now : Nat) : GeoCacheRow :=
  { continent := data.continent
    continentCode := data.continentCode
    country := data.country
    countryCode := data.countryCode
    region := data.region
    regionName := data.regionName
    city := data.city
    district := data.district
    zip := data.zip
    lat := data.lat
    lon := data.lon
    timezone := data.timezone
    utc_offset := data.offset
    currency := data.currency
    isp := data.isp
    org := data.org
    as_info := data.as_info
    asname := data.asname
    mobile := data.mobile
    proxy := data.proxy
    hosting := data.hosting
    last_updated := now }

/-- `save_geo_to_db(ip, data)` (MBCoreServer.py lines 368-434): a no-op when
the geo database is disabled; otherwise insert-or-overwrite the full row
(both `INSERT` values and every `DO UPDATE SET` column are the incoming
values). -/
def save_geo_to_db (enabled : Bool) (db : GeoCacheDB) (ip : String)
    (data : ApiData) (now : Nat) : GeoCacheDB :=
  if enabled then
    match alookup db ip with
    | none => (ip, rowOfApi data now) :: db
    | some _ => aupdate db ip (fun _ => rowOfApi data now)
  else db

-- ═══════════════════════════════════════════════════════════════════════════
-- src/web/MBCoreServer.py — session cache entries and geo_worker
-- (lines 632-739)
-- ═══════════════════════════════════════════════════════════════════════════

/-- One value of MBCoreServer.py's in-memory `geo_cache` session dict: the
dict literal written by `geo_worker` / `set_cached_geo_private` (`status` is
one of `'ok'`, `'unavailable'`, `'private'`).  The `mobile`/`proxy`/`hosting`
slots hold `data.get(..., False)` — a Python bool from the API or the 0/1
integer from a DB row — modelled uniformly as the truth value. -/
structure SessionEntry where
  status : String
  continent : String
  continentCode : String
  country : String
  countryCode : String
  region : String
  regionName : String
  city : String
  district : String
  zip : String
  lat : Int
  lon : Int
  timezone : String
  offset : Int
  currency : String
  isp : String
  org : String
  as_info : String
  asname : String
  mobile : Bool
  proxy : Bool
  hosting : Bool
deriving Repr, DecidableEq

/-- The session entry `geo_worker` writes when `data` came from the API
(`from_db = False`, MBCoreServer.py lines 658-682): `offset` reads the
`'offset'` key and `as` the `'as'` key. -/
def sessionOfApi (data : ApiData) : SessionEntry :=
  { status := "ok"
    continent := data.continent
    continentCode := data.continentCode
    country := data.country
    countryCode := data.countryCode
    region := data.region
    regionName := data.regionName
    city := data.city
    district := data.district
    zip := data.zip
    lat := data.lat
    lon := data.lon
    timezone := data.timezone
    offset := data.offset
    currency := data.currency
    isp := data.isp
    org := data.org
    as_info := data.as_info
    asname := data.asname
    mobile := data.mobile
    proxy := data.proxy
    hosting := data.hosting }

/-- The session entry `geo_worker` writes when `data` is a row read back from
the geo database (`from_db = True`): the same dict literal, except that
`offset` reads the row's `utc_offset` column and `as` its `as_info` column
(MBCoreServer.py lines 675 and 679). -/
def sessionOfDbRow (row : GeoCacheRow) : SessionEntry :=
  { status := "ok"
    continent := row.continent
    continentCode := row.continentCode
    country := row.country
    countryCode := row.countryCode
    region := row.region
    regionName := row.regionName
    city := row.city
    district := row.district
    zip := row.zip
    lat := row.lat
    lon := row.lon
    timezone := row.timezone
    offset := row.utc_offset
    currency := row.currency
    isp := row.isp
    org := row.org
    as_info := row.as_info
    asname := row.asname
    mobile := row.mobile
    proxy := row.proxy
    hosting := row.hosting }

/-- The `'unavailable'` session entry (MBCoreServer.py lines 683-694). -/
def sessionUnavailable : SessionEntry :=
  { status := "unavailable"
    continent := "", continentCode := "", country := "", countryCode := ""
    region := "", regionName := "", city := "", district := "", zip := ""
    lat := 0, lon := 0, timezone := "", offset := 0, currency := ""
    isp := "", org := "", as_info := "", asname := ""
    mobile := false, proxy := false, hosting := false }

/-- The `'private'` session entry written by `set_cached_geo_private`
(MBCoreServer.py lines 716-731). -/
def sessionPrivate : SessionEntry :=
  { status := "private"
    continent := "", continentCode := "", country := "", countryCode := ""
    region := "", regionName := "", city := "", district := "", zip := ""
    lat := 0, lon := 0, timezone := "", offset := 0, currency := ""
    isp := "", org := "", as_info := "", asname := ""
    mobile := false, proxy := false, hosting := false }

/-- The mutable MBCoreServer.py state the lookup pipeline touches:
`geo_db_enabled` flag, persistent `geo_cache` table, in-memory session
`geo_cache` dict, `pending_lookups` set, `geo_queue`, and the worker's two
external-effect counters (`apiCalls` counts `fetch_geo_api` calls, `sleeps`
counts `time.sleep(GEO_API_DELAY)` executions). -/
structure WorkerState where
  geo_db_enabled : Bool
  geo_db : GeoCacheDB
  session : List (String × SessionEntry)
  pending : List String
  queue : List (String × String)
  apiCalls : Nat
  sleeps : Nat
deriving Repr, DecidableEq

/-- One iteration of MBCoreServer.py's `geo_worker` (lines 632-707) in which
the dequeue did not time out: pop the queue head; first consult the geo
database (`get_geo_from_db`); on a hit (`from_db = True`) make no API call,
mirror the DB row into the session cache and do not sleep; on a miss call the
API, save a success to the geo database, mirror the result (or the
`'unavailable'` entry) into the session cache, and sleep the rate-limit delay
(`if not from_db: time.sleep(GEO_API_DELAY)`, lines 705-707).  In all cases
the IP is discarded from the pending set. -/
def geo_worker_step (s : WorkerState) (now : Nat) (outcome : ApiOutcome) :
    WorkerState :=
  match s.queue with
  | [] => s
  | (ip, _network_type) :: rest =>
    match get_geo_from_db s.geo_db_enabled s.geo_db ip with
    | some row =>
      { s with queue := rest
               session := aset s.session ip (sessionOfDbRow row)
               pending := s.pending.filter (fun x => x != ip) }
    | none =>
      match fetch_geo_api outcome with
      | some data =>
        { s with queue := rest
                 geo_db := save_geo_to_db s.geo_db_enabled s.geo_db ip data now
                 session := aset s.session ip (sessionOfApi data)
                 pending := s.pending.filter (fun x => x != ip)
                 apiCalls := s.apiCalls + 1
                 sleeps := s.sleeps + 1 }
      | none =>
        { s with queue := rest
                 session := aset s.session ip sessionUnavailable
                 pending := s.pending.filter (fun x => x != ip)
                 apiCalls := s.apiCalls + 1
                 sleeps := s.sleeps + 1 }

end MBCore

-- ═══════════════════════════════════════════════════════════════════════════
-- src/web/server.py — session-cache-only geo_worker (lines 459-504) and the
-- refresh_worker disconnect handling (lines 536-611)
-- ═══════════════════════════════════════════════════════════════════════════

namespace WebServer

/-- One value of server.py's session `geo_cache` dict: the dict literal
written by `geo_worker` (server.py lines 473-495; `GEO_API_FIELDS` at line 42
requests only these fields). -/
structure SessionEntry where
  status : String
  continent : String
  continentCode : String
  country : String
  countryCode : String
  region : String
  regionName : String
  city : String
  lat : Int
  lon : Int
  isp : String
deriving Repr, DecidableEq

/-- The `'ok'` session entry built from a successful API response
(server.py lines 474-486). -/
def sessionOfApi (data : GeoApiData) : SessionEntry :=
  { status := "ok"
    continent := ""
    continentCode := ""
    country := data.country
    countryCode := data.countryCode
    region := data.region
    regionName := data.regionName
    city := data.city
    lat := data.lat
    lon := data.lon
    isp := data.isp }

/-- The `'unavailable'` session entry (server.py lines 487-494). -/
def sessionUnavailable : SessionEntry :=
  { status := "unavailable"
    continent := "", continentCode := "", country := "", countryCode := ""
    region := "", regionName := "", city := "", lat := 0, lon := 0, isp := "" }

/-- The mutable server.py state its lookup worker touches (session cache,
pending set, queue, and the two external-effect counters). -/
structure WorkerState where
  session : List (String × SessionEntry)
  pending : List String
  queue : List (String × String)
  apiCalls : Nat
  sleeps : Nat
deriving Repr, DecidableEq

/-- One iteration of server.py's `geo_worker` (lines 459-504) in which the
dequeue did not time out: pop the queue head, call the external API
unconditionally, write the `'ok'` or `'unavailable'` session entry, discard
the IP from the pending set, and sleep the rate-limit delay
(`time.sleep(GEO_API_DELAY)`, line 504, executed on every processed item).
server.py's `continent`/`continentCode` session slots take
`data.get('continent','')` / `data.get('continentCode','')`, keys absent from
the peerlist-style field set modelled by `GeoApiData`; they are blank here,
which does not affect any property stated below. -/
def geo_worker_step (s : WorkerState) (outcome : ApiOutcome) : WorkerState :=
  match s.queue with
  | [] => s
  | (ip, _network_type) :: rest =>
    match fetch_geo_api outcome with
    | some data =>
      { session := aset s.session ip (sessionOfApi data)
        pending := s.pending.filter (fun x => x != ip)
        queue := rest
        apiCalls := s.apiCalls + 1
        sleeps := s.sleeps + 1 }
    | none =>
      { session := aset s.session ip sessionUnavailable
        pending := s.pending.filter (fun x => x != ip)
        queue := rest
        apiCalls := s.apiCalls + 1
        sleeps := s.sleeps + 1 }

/-- One value of server.py's `peer_ip_map` dict (line 776 in the identical
MBCoreServer.py variant; server.py line 571):
`{'ip': ip, 'port': port, 'network': network_type}`, recorded so that the
address is still known when the peer disconnects. -/
structure PeerIdentity where
  ip : String
  port : String
  network : String
deriving Repr, DecidableEq

/-- `peer_ip_map`, keyed by the stringified peer id. -/
abbrev PeerIdMap := List (String × PeerIdentity)

/-- One entry of `recent_changes`: the tuple
`(now, change_type, {'ip': ..., 'port': ..., 'network': ...})`. -/
structure ChangeEvent where
  time : Nat
  kind : String
  ip : String
  port : String
  network : String
deriving Repr, DecidableEq

/-- The body of the disconnect loop of `refresh_worker` (server.py lines
586-595) for one departed peer id:
`peer_info = peer_ip_map.pop(pid, {})`, then build the `'disconnected'`
change event from `peer_info.get('ip', f'peer#{pid}')`,
`peer_info.get('port', '')` and `peer_info.get('network', '?')`.
Returns the map after the pop together with the appended event. -/
def handle_disconnected (m : PeerIdMap) (now : Nat) (pid : String) :
    PeerIdMap × ChangeEvent :=
  let info := alookup m pid
  let m' := aremove m pid
  match info with
  | some pi =>
    (m', { time := now, kind := "disconnected"
           ip := pi.ip, port := pi.port, network := pi.network })
  | none =>
    (m', { time := now, kind := "disconnected"
           ip := "peer#" ++ pid, port := "", network := "?" })

/-- The whole disconnect phase of `refresh_worker`
(`for pid in previous_ids - current_ids: ...`, server.py lines 586-595):
iterate `handle_disconnected` over every id of the previous snapshot that is
absent from the current one, appending one event per id. -/
def refresh_disconnects (m : PeerIdMap) (now : Nat)
    (gone : List String) : PeerIdMap × List ChangeEvent :=
  match gone with
  | [] => (m, [])
  | pid :: rest =>
    let step := handle_disconnected m now pid
    let tail := refresh_disconnects step.fst now rest
    (tail.fst, step.snd :: tail.snd)

/-- The set difference `previous_ids - current_ids` that the disconnect loop
ranges over. -/
def departedIds (previous current : List String) : List String :=
  previous.filter (fun pid => !current.contains pid)

end WebServer

-- ═══════════════════════════════════════════════════════════════════════════
-- Shared lemmas about the association-list store model
-- ═══════════════════════════════════════════════════════════════════════════

theorem alookup_cons {α : Type} (k' : String) (v : α) (m : List (String × α))
    (k : String) :
    alookup ((k', v) :: m) k = if k' = k then some v else alookup m k := by
  by_cases h : k' = k
  · simp [alookup, List.find?, h]
  · have hb : (k' == k) = false := by simp [h]
    simp [alookup, List.find?, h, hb]

theorem aupdate_cons {α : Type} (k' : String) (v : α) (m : List (String × α))
    (k : String) (f : α → α) :
    aupdate ((k', v) :: m) k f =
      (if k' = k then (k', f v) else (k', v)) :: aupdate m k f := by
  by_cases h : k' = k <;> simp [aupdate, h]

theorem alookup_aupdate_self {α : Type} (m : List (String × α)) (k : String)
    (f : α → α) :
    alookup (aupdate m k f) k = (alookup m k).map f := by
  induction m with
  | nil => rfl
  | cons e t ih =>
    obtain ⟨k', v⟩ := e
    rw [aupdate_cons]
    by_cases h : k' = k
    · simp [h, alookup_cons]
    · simp [h, alookup_cons, ih]

theorem alookup_aupdate_ne {α : Type} (m : List (String × α)) (k k₂ : String)
    (f : α → α) (h : k ≠ k₂) :
    alookup (aupdate m k f) k₂ = alookup m k₂ := by
  induction m with
  | nil => rfl
  | cons e t ih =>
    obtain ⟨k', v⟩ := e
    rw [aupdate_cons]
    by_cases hk : k' = k
    · simp [alookup_cons, hk, h, ih]
    · by_cases hk2 : k' = k₂ <;>
        simp [alookup_cons, hk, hk2, Ne.symm h, ih]

theorem alookup_filter_ne {α : Type} (m : List (String × α)) (k k₂ : String)
    (h : k ≠ k₂) :
    alookup (m.filter (fun e => e.fst != k)) k₂ = alookup m k₂ := by
  induction m with
  | nil => rfl
  | cons e t ih =>
    obtain ⟨k', v⟩ := e
    by_cases hk : k' = k
    · have hb : ((k', v).fst != k) = false := by simp [hk]
      rw [List.filter_cons, hb]
      simp [alookup_cons, hk, h, ih]
    · have hb : ((k', v).fst != k) = true := by simp [hk]
      rw [List.filter_cons, hb]
      by_cases hk2 : k' = k₂ <;> simp [alookup_cons, hk2, ih]

theorem alookup_aremove_self {α : Type} (m : List (String × α)) (k : String) :
    alookup (aremove m k) k = none := by
  induction m with
  | nil => rfl
  | cons e t ih =>
    obtain ⟨k', v⟩ := e
    by_cases hk : k' = k
    · have hb : ((k', v).fst != k) = false := by simp [hk]
      rw [aremove, List.filter_cons, hb]
      simpa [aremove] using ih
    · have hb : ((k', v).fst != k) = true := by simp [hk]
      rw [aremove, List.filter_cons, hb]
      simpa [alookup_cons, hk, aremove] using ih

theorem alookup_aremove_ne {α : Type} (m : List (String × α)) (k k₂ : String)
    (h : k ≠ k₂) :
    alookup (aremove m k) k₂ = alookup m k₂ :=
  alookup_filter_ne m k k₂ h

theorem alookup_aset_self {α : Type} (m : List (String × α)) (k : String)
    (v : α) : alookup (aset m k v) k = some v := by
  simp [aset, alookup_cons]

-- ═══════════════════════════════════════════════════════════════════════════
-- Shared lemmas about the peers_geo operations
-- ═══════════════════════════════════════════════════════════════════════════

theorem get_peer_geo_upsert_none (db : GeoDB) (ip nt : String) (st : Nat)
    (g : GeoInput) (now : Nat) (h : get_peer_geo db ip = none) :
    get_peer_geo (upsert_peer_geo db ip nt st g now) ip =
      some (upsertInsertRow nt st g now) := by
  have h' : alookup db ip = none := h
  simp [upsert_peer_geo, get_peer_geo, h', alookup_cons]

theorem get_peer_geo_upsert_some (db : GeoDB) (ip nt : String) (st : Nat)
    (g : GeoInput) (now : Nat) (old : GeoRow)
    (h : get_peer_geo db ip = some old) :
    get_peer_geo (upsert_peer_geo db ip nt st g now) ip =
      some (upsertUpdateRow old st g now) := by
  have h' : alookup db ip = some old := h
  simp [upsert_peer_geo, get_peer_geo, h', alookup_aupdate_self]

theorem get_peer_geo_upsert_ne (db : GeoDB) (ip ip₂ nt : String) (st : Nat)
    (g : GeoInput) (now : Nat) (h : ip ≠ ip₂) :
    get_peer_geo (upsert_peer_geo db ip nt st g now) ip₂ =
      get_peer_geo db ip₂ := by
  cases hl : alookup db ip with
  | none => simp [upsert_peer_geo, get_peer_geo, hl, alookup_cons, h]
  | some old =>
    simp [upsert_peer_geo, get_peer_geo, hl, alookup_aupdate_ne _ _ _ _ h]

theorem get_peer_geo_update_seen_self (db : GeoDB) (ip : String) (now : Nat) :
    get_peer_geo (update_peer_seen db ip now) ip =
      (get_peer_geo db ip).map (fun old => { old with last_seen := now }) := by
  simp [update_peer_seen, get_peer_geo, alookup_aupdate_self]

theorem get_peer_geo_update_seen_ne (db : GeoDB) (ip ip₂ : String)
    (now : Nat) (h : ip ≠ ip₂) :
    get_peer_geo (update_peer_seen db ip now) ip₂ = get_peer_geo db ip₂ := by
  simp [update_peer_seen, get_peer_geo, alookup_aupdate_ne _ _ _ _ h]

-- ═══════════════════════════════════════════════════════════════════════════
-- Shared lemmas about the retry-backoff policy
-- ═══════════════════════════════════════════════════════════════════════════

theorem should_retry_geo_of_none (db : GeoDB) (now : Nat) (ip : String)
    (h : get_peer_geo db ip = none) : should_retry_geo db now ip = true := by
  simp [should_retry_geo, h]

theorem should_retry_geo_of_stable (db : GeoDB) (now : Nat) (ip : String)
    (geo : GeoRow) (h : get_peer_geo db ip = some geo)
    (hs : geo.geo_status = GEO_OK ∨ geo.geo_status = GEO_PRIVATE) :
    should_retry_geo db now ip = false := by
  rcases hs with hs | hs <;> simp [should_retry_geo, h, hs, GEO_OK, GEO_PRIVATE]

theorem should_retry_geo_of_unstable (db : GeoDB) (now : Nat) (ip : String)
    (geo : GeoRow) (h : get_peer_geo db ip = some geo)
    (hs : geo.geo_status ≠ GEO_OK) (hp : geo.geo_status ≠ GEO_PRIVATE) :
    should_retry_geo db now ip =
      decide ((now : Int) - (geo.geo_last_lookup : Int) ≥
        (RETRY_INTERVALS.getD
          (min geo.geo_retry_count (RETRY_INTERVALS.length - 1)) 0 : Int)) := by
  simp [should_retry_geo, h, hs, hp]

theorem retry_interval_le (idx : Nat) :
    RETRY_INTERVALS.getD idx 0 ≤ 604800 := by
  match idx with
  | 0 => decide
  | 1 => decide
  | 2 => decide
  | 3 => decide
  | n + 4 => simp [RETRY_INTERVALS, List.getD]

-- ═══════════════════════════════════════════════════════════════════════════
-- Claim theorems
-- ═══════════════════════════════════════════════════════════════════════════

/-- C1: at most one pending-lookup entry per IP.  `queue_geo_lookup` for an
already-pending IP is a no-op (neither a second pending entry nor a second
queue item); two calls in quick succession while the first is outstanding
leave exactly one queue item for the IP (hence exactly one external call when
the worker drains it); enqueueing never removes a pending entry; and the
pending entry is removed by the worker after it finishes processing that
IP. -/
theorem pending_lookup_dedup (s : LookupState) (ip nt nt2 : String) :
    (ip ∈ s.pending → queue_geo_lookup s ip nt = s)
  ∧ (queue_geo_lookup (queue_geo_lookup s ip nt) ip nt2 =
      queue_geo_lookup s ip nt)
  ∧ (ip ∉ s.pending →
      (queue_geo_lookup (queue_geo_lookup s ip nt) ip nt2).queue =
        s.queue ++ [(ip, nt)]
    ∧ (queue_geo_lookup (queue_geo_lookup s ip nt) ip nt2).pending =
        ip :: s.pending)
  ∧ (∀ x, x ∈ s.pending → x ∈ (queue_geo_lookup s ip nt).pending)
  ∧ (∀ rest now outcome, s.queue = (ip, nt) :: rest →
      ip ∉ (geo_lookup_worker_step s now outcome).pending) := by
  have hsecond : queue_geo_lookup (queue_geo_lookup s ip nt) ip nt2 =
      queue_geo_lookup s ip nt := by
    by_cases h : ip ∈ s.pending
    · simp [queue_geo_lookup, h]
    · simp [queue_geo_lookup, h]
  refine ⟨?_, hsecond, ?_, ?_, ?_⟩
  · intro h; simp [queue_geo_lookup, h]
  · intro h
    rw [hsecond]
    simp [queue_geo_lookup, h]
  · intro x hx
    by_cases h : ip ∈ s.pending <;> simp [queue_geo_lookup, h, hx]
  · intro rest now outcome h
    simp [geo_lookup_worker_step, h, List.mem_filter]

/-- Witness for C1: on an initially empty state, a double enqueue for the same
IP leaves exactly one queue item, and the worker's processing of it clears
the pending mark. -/
theorem pending_lookup_dedup_witness :
    (queue_geo_lookup (queue_geo_lookup
        ⟨[], [], [], 0, 0⟩ "203.0.113.8" "ipv4") "203.0.113.8" "ipv4").queue =
      ([] : List (String × String)) ++ [("203.0.113.8", "ipv4")]
  ∧ "203.0.113.8" ∉ (geo_lookup_worker_step
      (queue_geo_lookup ⟨[], [], [], 0, 0⟩ "203.0.113.8" "ipv4") 50
      ApiOutcome.exception).pending := by
  constructor
  · exact ((pending_lookup_dedup ⟨[], [], [], 0, 0⟩ "203.0.113.8" "ipv4"
      "ipv4").2.2.1 (by simp)).1
  · exact (pending_lookup_dedup
      (queue_geo_lookup ⟨[], [], [], 0, 0⟩ "203.0.113.8" "ipv4")
      "203.0.113.8" "ipv4" "ipv4").2.2.2.2 [] 50 ApiOutcome.exception
      (by decide)

/-- C2: `should_retry_geo` is true for an IP with no stored record; false for
a record whose status is `GEO_OK` or `GEO_PRIVATE`; and for a record with
status `GEO_UNAVAILABLE` it is true exactly when
`now - last_lookup >= RETRY_INTERVALS[min(retry_count, len-1)]`, where the
interval table is 1 day, 3 days, 7 days, 7 days, clamped to the last
entry. -/
theorem should_retry_policy_spec (db : GeoDB) (now : Nat) (ip : String) :
    RETRY_INTERVALS = [1 * 86400, 3 * 86400, 7 * 86400, 7 * 86400]
  ∧ (get_peer_geo db ip = none → should_retry_geo db now ip = true)
  ∧ (∀ geo, get_peer_geo db ip = some geo →
      geo.geo_status = GEO_OK ∨ geo.geo_status = GEO_PRIVATE →
      should_retry_geo db now ip = false)
  ∧ (∀ geo, get_peer_geo db ip = some geo →
      geo.geo_status = GEO_UNAVAILABLE →
      (should_retry_geo db now ip = true ↔
        (now : Int) - (geo.geo_last_lookup : Int) ≥
          (RETRY_INTERVALS.getD
            (min geo.geo_retry_count (RETRY_INTERVALS.length - 1)) 0 : Int))) := by
  refine ⟨by decide, ?_, ?_, ?_⟩
  · exact should_retry_geo_of_none db now ip
  · exact fun geo h hs => should_retry_geo_of_stable db now ip geo h hs
  · intro geo h hs
    rw [should_retry_geo_of_unstable db now ip geo h
      (by rw [hs]; decide) (by rw [hs]; decide)]
    exact decide_eq_true_iff

/-- Witness for C2: an absent IP is eligible; an `GEO_OK` row is not; an
`GEO_UNAVAILABLE` row with retry_count 0 becomes eligible one day after its
last lookup. -/
theorem should_retry_policy_spec_witness :
    should_retry_geo ([] : GeoDB) 500 "8.8.8.8" = true
  ∧ should_retry_geo
      [("203.0.113.1", upsertInsertRow "ipv4" GEO_OK emptyGeoInput 100)]
      500 "203.0.113.1" = false
  ∧ should_retry_geo
      [("203.0.113.2", upsertInsertRow "ipv4" GEO_UNAVAILABLE emptyGeoInput 100)]
      86500 "203.0.113.2" = true := by
  refine ⟨?_, ?_, ?_⟩
  · exact (should_retry_policy_spec [] 500 "8.8.8.8").2.1 rfl
  · exact (should_retry_policy_spec
      [("203.0.113.1", upsertInsertRow "ipv4" GEO_OK emptyGeoInput 100)]
      500 "203.0.113.1").2.2.1
      (upsertInsertRow "ipv4" GEO_OK emptyGeoInput 100) rfl (Or.inl rfl)
  · exact ((should_retry_policy_spec
      [("203.0.113.2", upsertInsertRow "ipv4" GEO_UNAVAILABLE emptyGeoInput 100)]
      86500 "203.0.113.2").2.2.2
      (upsertInsertRow "ipv4" GEO_UNAVAILABLE emptyGeoInput 100) rfl rfl).mpr
      (by decide)

/-- C10: once a row exists for an IP, no later `upsert_peer_geo` (for any IP)
or `update_peer_seen` changes its `first_seen`; `update_peer_seen` on the IP
itself changes exactly the `last_seen` field. -/
theorem first_seen_immutable (db : GeoDB) (ip : String) (old : GeoRow)
    (h : get_peer_geo db ip = some old) (ip₂ nt : String) (st : Nat)
    (g : GeoInput) (now : Nat) :
    ((get_peer_geo (upsert_peer_geo db ip₂ nt st g now) ip).map
        GeoRow.first_seen = some old.first_seen)
  ∧ ((get_peer_geo (update_peer_seen db ip₂ now) ip).map
        GeoRow.first_seen = some old.first_seen)
  ∧ (get_peer_geo (update_peer_seen db ip now) ip =
        some { old with last_seen := now }) := by
  refine ⟨?_, ?_, ?_⟩
  · by_cases he : ip₂ = ip
    · subst he
      rw [get_peer_geo_upsert_some db ip₂ nt st g now old h]
      simp [upsertUpdateRow]
    · rw [get_peer_geo_upsert_ne db ip₂ ip nt st g now he, h]
      rfl
  · by_cases he : ip₂ = ip
    · subst he
      rw [get_peer_geo_update_seen_self, h]
      simp
    · rw [get_peer_geo_update_seen_ne db ip₂ ip now he, h]
      rfl
  · rw [get_peer_geo_update_seen_self, h]
    rfl

/-- Witness for C10 on a one-row store. -/
theorem first_seen_immutable_witness :
    ((get_peer_geo (upsert_peer_geo
        [("198.51.100.20", upsertInsertRow "ipv4" GEO_OK emptyGeoInput 1111)]
        "198.51.100.20" "ipv4" GEO_UNAVAILABLE emptyGeoInput 2222)
        "198.51.100.20").map GeoRow.first_seen =
      some (upsertInsertRow "ipv4" GEO_OK emptyGeoInput 1111).first_seen)
  ∧ (get_peer_geo (update_peer_seen
        [("198.51.100.20", upsertInsertRow "ipv4" GEO_OK emptyGeoInput 1111)]
        "198.51.100.20" 3333) "198.51.100.20" =
      some { upsertInsertRow "ipv4" GEO_OK emptyGeoInput 1111 with
             last_seen := 3333 }) := by
  have h := first_seen_immutable
    [("198.51.100.20", upsertInsertRow "ipv4" GEO_OK emptyGeoInput 1111)]
    "198.51.100.20" (upsertInsertRow "ipv4" GEO_OK emptyGeoInput 1111) rfl
  exact ⟨(h "198.51.100.20" "ipv4" GEO_UNAVAILABLE emptyGeoInput 2222).1,
         (h "198.51.100.20" "ipv4" GEO_UNAVAILABLE emptyGeoInput 3333).2.2⟩

/-- A parsed successful MBCoreServer.py API response with every optional field
at its `data.get` default; concrete scenarios below override single fields. -/
def blankApiData : MBCore.ApiData :=
  { status := "success", continent := "", continentCode := "", country := ""
    countryCode := "", region := "", regionName := "", city := ""
    district := "", zip := "", lat := 0, lon := 0, timezone := "", offset := 0
    currency := "", isp := "", org := "", as_info := "", asname := ""
    mobile := false, proxy := false, hosting := false }

/-- C7: a non-geolocatable address (overlay network or private/loopback/
link-local IP) never reaches the lookup pipeline: processing it leaves the
pending set, the queue and the external-call counter untouched, and when the
store has no row for it, it is short-circuited to a `GEO_PRIVATE` record by
`process_peers` itself.  Overlay network types are never public, and a
private IP is never public under any network type. -/
theorem private_address_short_circuit (s : LookupState) (now : Nat)
    (nt ip : String) (h : is_public_address nt ip = false) :
    ((process_peer_geo s now nt ip).pending = s.pending
  ∧ (process_peer_geo s now nt ip).queue = s.queue
  ∧ (process_peer_geo s now nt ip).apiCalls = s.apiCalls)
  ∧ (get_peer_geo s.db ip = none →
      get_peer_geo (process_peer_geo s now nt ip).db ip =
        some (upsertInsertRow nt GEO_PRIVATE emptyGeoInput now))
  ∧ (∀ a : String, is_public_address "onion" a = false
      ∧ is_public_address "i2p" a = false
      ∧ is_public_address "cjdns" a = false)
  ∧ (∀ nt2 a : String, is_private_ip a = true →
      is_public_address nt2 a = false) := by
  have key : process_peer_geo s now nt ip =
      if (get_peer_geo s.db ip).isNone then
        { s with db := upsert_peer_geo s.db ip nt GEO_PRIVATE emptyGeoInput now }
      else s := by
    simp [process_peer_geo, h]
  refine ⟨?_, ?_, ?_, ?_⟩
  · rw [key]
    by_cases hn : (get_peer_geo s.db ip).isNone <;> simp [hn]
  · intro hnone
    rw [key, if_pos (by simp [hnone])]
    exact get_peer_geo_upsert_none s.db ip nt GEO_PRIVATE emptyGeoInput now hnone
  · intro a
    refine ⟨?_, ?_, ?_⟩ <;> simp [is_public_address]
  · intro nt2 a hpriv
    simp [is_public_address, hpriv]

/-- Witness for C7: an onion address on an empty store is written straight to
`GEO_PRIVATE` without touching the queue. -/
theorem private_address_short_circuit_witness :
    (process_peer_geo ⟨[], [], [], 0, 0⟩ 77 "onion" "abcd.onion").queue =
      (⟨[], [], [], 0, 0⟩ : LookupState).queue
  ∧ get_peer_geo
      (process_peer_geo ⟨[], [], [], 0, 0⟩ 77 "onion" "abcd.onion").db
      "abcd.onion" =
      some (upsertInsertRow "onion" GEO_PRIVATE emptyGeoInput 77) := by
  have h := private_address_short_circuit ⟨[], [], [], 0, 0⟩ 77 "onion"
    "abcd.onion" (by decide)
  exact ⟨h.1.2.1, h.2.1 rfl⟩

/-- C6: the inter-request delay is slept exactly when an external API call was
made for the processed item.  In peerlist.py and server.py every dequeued
item triggers exactly one call and one sleep; in MBCoreServer.py
`time.sleep(GEO_API_DELAY)` runs iff `fetch_geo_api` ran — in particular a
persistent-store hit (`from_db`) skips both the call and the delay. -/
theorem rate_limit_sleep_iff_api_call (s : LookupState)
    (ss : WebServer.WorkerState) (ms : MBCore.WorkerState) (now : Nat)
    (ip nt : String) :
    (∀ rest outcome, s.queue = (ip, nt) :: rest →
       (geo_lookup_worker_step s now outcome).apiCalls = s.apiCalls + 1
     ∧ (geo_lookup_worker_step s now outcome).sleeps = s.sleeps + 1)
  ∧ (∀ rest outcome, ss.queue = (ip, nt) :: rest →
       (WebServer.geo_worker_step ss outcome).apiCalls = ss.apiCalls + 1
     ∧ (WebServer.geo_worker_step ss outcome).sleeps = ss.sleeps + 1)
  ∧ (∀ rest outcome, ms.queue = (ip, nt) :: rest →
       ((MBCore.geo_worker_step ms now outcome).sleeps = ms.sleeps + 1 ↔
        (MBCore.geo_worker_step ms now outcome).apiCalls = ms.apiCalls + 1)
     ∧ ((MBCore.get_geo_from_db ms.geo_db_enabled ms.geo_db ip).isSome →
         (MBCore.geo_worker_step ms now outcome).apiCalls = ms.apiCalls
       ∧ (MBCore.geo_worker_step ms now outcome).sleeps = ms.sleeps)) := by
  refine ⟨?_, ?_, ?_⟩
  · intro rest outcome h
    cases hf : fetch_geo_api outcome <;> simp [geo_lookup_worker_step, h, hf]
  · intro rest outcome h
    cases hf : fetch_geo_api outcome <;>
      simp [WebServer.geo_worker_step, h, hf]
  · intro rest outcome h
    cases hdb : MBCore.get_geo_from_db ms.geo_db_enabled ms.geo_db ip with
    | some row =>
      refine ⟨?_, fun _ => ?_⟩ <;>
        simp [MBCore.geo_worker_step, h, hdb]
    | none =>
      refine ⟨?_, fun habs => ?_⟩
      · cases hf : MBCore.fetch_geo_api outcome <;>
          simp [MBCore.geo_worker_step, h, hdb, hf]
      · simp at habs

/-- Witness for C6: a peerlist.py worker iteration both calls and sleeps,
while an MBCoreServer.py iteration hitting the persistent store does
neither. -/
theorem rate_limit_sleep_iff_api_call_witness :
    (geo_lookup_worker_step ⟨["9.8.7.6"], [("9.8.7.6", "ipv4")], [], 0, 0⟩ 10
        ApiOutcome.exception).sleeps = 0 + 1
  ∧ (MBCore.geo_worker_step
        ⟨true, [("9.8.7.6", MBCore.rowOfApi blankApiData 5)], [], ["9.8.7.6"],
         [("9.8.7.6", "ipv4")], 0, 0⟩ 10 MBCore.ApiOutcome.exception).apiCalls
      = 0 := by
  constructor
  · exact ((rate_limit_sleep_iff_api_call
      ⟨["9.8.7.6"], [("9.8.7.6", "ipv4")], [], 0, 0⟩
      ⟨[], [], [], 0, 0⟩
      ⟨true, [("9.8.7.6", MBCore.rowOfApi blankApiData 5)], [], ["9.8.7.6"],
       [("9.8.7.6", "ipv4")], 0, 0⟩ 10 "9.8.7.6" "ipv4").1 []
      ApiOutcome.exception rfl).2
  · exact (((rate_limit_sleep_iff_api_call
      ⟨["9.8.7.6"], [("9.8.7.6", "ipv4")], [], 0, 0⟩
      ⟨[], [], [], 0, 0⟩
      ⟨true, [("9.8.7.6", MBCore.rowOfApi blankApiData 5)], [], ["9.8.7.6"],
       [("9.8.7.6", "ipv4")], 0, 0⟩ 10 "9.8.7.6" "ipv4").2.2 []
      MBCore.ApiOutcome.exception rfl).2 (by decide)).1

/-- C3 scenario, first save: city "Berlin" stored for 203.0.113.5. -/
def c3BerlinDb : MBCore.GeoCacheDB :=
  MBCore.save_geo_to_db true [] "203.0.113.5"
    { blankApiData with city := "Berlin" } 100

/-- C3 scenario, second save: an update whose city field is blank. -/
def c3AfterBlank : MBCore.GeoCacheDB :=
  MBCore.save_geo_to_db true c3BerlinDb "203.0.113.5" blankApiData 200

/-- C3 scenario: a `peers_geo` row whose hosting flag is populated (1). -/
def c3HostingDb : GeoDB :=
  upsert_peer_geo [] "198.18.0.1" "ipv4" GEO_OK
    { emptyGeoInput with hosting := 1 } 100

/-- C3 scenario: an upsert carrying the default hosting value 0. -/
def c3HostingDbAfter : GeoDB :=
  upsert_peer_geo c3HostingDb "198.18.0.1" "ipv4" GEO_UNAVAILABLE
    emptyGeoInput 200

/-- C3 counterexample: the coalesce law does not hold for every location
field of every update path.  (i) `save_geo_to_db` (MBCoreServer.py) coalesces
nothing: an update carrying a blank city erases the stored "Berlin".
(ii) `upsert_peer_geo` (peerlist.py) overwrites the hosting flag
unconditionally (`hosting = excluded.hosting`): an update carrying the
default empty value 0 erases a stored 1. -/
theorem coalesce_law_cex :
    (alookup c3BerlinDb "203.0.113.5").map MBCore.GeoCacheRow.city =
      some "Berlin"
  ∧ (alookup c3AfterBlank "203.0.113.5").map MBCore.GeoCacheRow.city = some ""
  ∧ (alookup c3AfterBlank "203.0.113.5").map MBCore.GeoCacheRow.city ≠
      some "Berlin"
  ∧ (get_peer_geo c3HostingDb "198.18.0.1").map GeoRow.hosting = some 1
  ∧ (get_peer_geo c3HostingDbAfter "198.18.0.1").map GeoRow.hosting =
      some 0 := by
  exact ⟨rfl, rfl, by decide, rfl, rfl⟩

/-- C3 (amended): in `upsert_peer_geo` the coalesce law does hold for every
text location field (country, country_code, region, region_name, city,
district, isp, as_info) and for the coordinates (an incoming 0 preserves the
stored lat/lon); the hosting flag is excluded (overwritten unconditionally),
and `save_geo_to_db` of MBCoreServer.py overwrites every field with the
incoming value. -/
theorem coalesce_law_amended (db : GeoDB) (ip nt : String) (st : Nat)
    (g : GeoInput) (now : Nat) (old : GeoRow)
    (h : get_peer_geo db ip = some old) :
    (g.country = "" → (get_peer_geo (upsert_peer_geo db ip nt st g now)
        ip).map GeoRow.country = some old.country)
  ∧ (g.country_code = "" → (get_peer_geo (upsert_peer_geo db ip nt st g now)
        ip).map GeoRow.country_code = some old.country_code)
  ∧ (g.region = "" → (get_peer_geo (upsert_peer_geo db ip nt st g now)
        ip).map GeoRow.region = some old.region)
  ∧ (g.region_name = "" → (get_peer_geo (upsert_peer_geo db ip nt st g now)
        ip).map GeoRow.region_name = some old.region_name)
  ∧ (g.city = "" → (get_peer_geo (upsert_peer_geo db ip nt st g now)
        ip).map GeoRow.city = some old.city)
  ∧ (g.district = "" → (get_peer_geo (upsert_peer_geo db ip nt st g now)
        ip).map GeoRow.district = some old.district)
  ∧ (g.isp = "" → (get_peer_geo (upsert_peer_geo db ip nt st g now)
        ip).map GeoRow.isp = some old.isp)
  ∧ (g.as_info = "" → (get_peer_geo (upsert_peer_geo db ip nt st g now)
        ip).map GeoRow.as_info = some old.as_info)
  ∧ (g.lat = 0 → (get_peer_geo (upsert_peer_geo db ip nt st g now)
        ip).map GeoRow.lat = some old.lat)
  ∧ (g.lon = 0 → (get_peer_geo (upsert_peer_geo db ip nt st g now)
        ip).map GeoRow.lon = some old.lon) := by
  have key := get_peer_geo_upsert_some db ip nt st g now old h
  refine ⟨?_, ?_, ?_, ?_, ?_, ?_, ?_, ?_, ?_, ?_⟩ <;>
    (intro hf; rw [key]; simp [upsertUpdateRow, coalesceBlank, hf])

/-- Witness for C3 (amended): a blank incoming city preserves a stored
"Oslo". -/
theorem coalesce_law_amended_witness :
    (get_peer_geo (upsert_peer_geo
        [("198.51.100.33", upsertInsertRow "ipv4" GEO_OK
            { emptyGeoInput with city := "Oslo" } 100)]
        "198.51.100.33" "ipv4" GEO_UNAVAILABLE emptyGeoInput 200)
        "198.51.100.33").map GeoRow.city =
      some (upsertInsertRow "ipv4" GEO_OK
        { emptyGeoInput with city := "Oslo" } 100).city := by
  exact (coalesce_law_amended
    [("198.51.100.33", upsertInsertRow "ipv4" GEO_OK
        { emptyGeoInput with city := "Oslo" } 100)]
    "198.51.100.33" "ipv4" GEO_UNAVAILABLE emptyGeoInput 200
    (upsertInsertRow "ipv4" GEO_OK { emptyGeoInput with city := "Oslo" } 100)
    rfl).2.2.2.2.1 rfl

/-- C4 scenario: store after one failed lookup of a fresh IP (the worker's
failure path is exactly `upsert_peer_geo(ip, nt, GEO_UNAVAILABLE)`,
peerlist.py line 503). -/
def c4FailOnce : GeoDB :=
  upsert_peer_geo [] "198.51.100.9" "ipv4" GEO_UNAVAILABLE emptyGeoInput 1000

/-- C4 scenario: store after a second consecutive failed lookup. -/
def c4FailTwice : GeoDB :=
  upsert_peer_geo c4FailOnce "198.51.100.9" "ipv4" GEO_UNAVAILABLE
    emptyGeoInput 90000

/-- C4 scenario: store after a third consecutive failed lookup. -/
def c4FailThrice : GeoDB :=
  upsert_peer_geo c4FailTwice "198.51.100.9" "ipv4" GEO_UNAVAILABLE
    emptyGeoInput 400000

/-- C4 counterexample: three consecutive failed lookups of
`198.51.100.9` starting from no record leave `geo_retry_count = 2`, not 3 —
the first failure takes the INSERT path, whose column list omits
`geo_retry_count`, so the schema default 0 is stored and only the two
subsequent conflicts increment. -/
theorem retry_count_three_failures_cex :
    (get_peer_geo c4FailOnce "198.51.100.9").map GeoRow.geo_retry_count =
      some 0
  ∧ (get_peer_geo c4FailThrice "198.51.100.9").map GeoRow.geo_retry_count =
      some 2
  ∧ (get_peer_geo c4FailThrice "198.51.100.9").map GeoRow.geo_retry_count ≠
      some 3 := by
  exact ⟨rfl, rfl, by decide⟩

/-- C4 (amended): on an existing row, an upsert with status `GEO_UNAVAILABLE`
increments `geo_retry_count` and any other status (in particular `GEO_OK` and
`GEO_PRIVATE`) resets it to 0; a first upsert (INSERT path) stores the schema
default 0 regardless of status.  Hence three consecutive failed lookups from
no record leave `geo_retry_count = 2`, and the next attempt is gated by
`RETRY_INTERVALS[2]` = 604800 s — numerically equal to the clamped final
entry `RETRY_INTERVALS[3]`. -/
theorem retry_count_transitions (db : GeoDB) (ip nt : String) (st : Nat)
    (g : GeoInput) (now : Nat) :
    (∀ old, get_peer_geo db ip = some old → st = GEO_UNAVAILABLE →
      (get_peer_geo (upsert_peer_geo db ip nt st g now) ip).map
        GeoRow.geo_retry_count = some (old.geo_retry_count + 1))
  ∧ (∀ old, get_peer_geo db ip = some old → st ≠ GEO_UNAVAILABLE →
      (get_peer_geo (upsert_peer_geo db ip nt st g now) ip).map
        GeoRow.geo_retry_count = some 0)
  ∧ (get_peer_geo db ip = none →
      (get_peer_geo (upsert_peer_geo db ip nt st g now) ip).map
        GeoRow.geo_retry_count = some 0)
  ∧ ((get_peer_geo c4FailThrice "198.51.100.9").map GeoRow.geo_retry_count =
      some 2
    ∧ (∀ t : Nat, should_retry_geo c4FailThrice t "198.51.100.9" = true ↔
        (t : Int) - 400000 ≥ (RETRY_INTERVALS.getD 2 0 : Int))
    ∧ RETRY_INTERVALS.getD 2 0 = RETRY_INTERVALS.getD 3 0) := by
  refine ⟨?_, ?_, ?_, rfl, ?_, by decide⟩
  · intro old h hst
    rw [get_peer_geo_upsert_some db ip nt st g now old h]
    simp [upsertUpdateRow, hst]
  · intro old h hst
    have hb : (st == GEO_UNAVAILABLE) = false := by simp [hst]
    rw [get_peer_geo_upsert_some db ip nt st g now old h]
    simp [upsertUpdateRow, hb]
  · intro h
    rw [get_peer_geo_upsert_none db ip nt st g now h]
    simp [upsertInsertRow]
  · intro t
    rw [should_retry_geo_of_unstable c4FailThrice t "198.51.100.9"
      (upsertUpdateRow (upsertUpdateRow
        (upsertInsertRow "ipv4" GEO_UNAVAILABLE emptyGeoInput 1000)
        GEO_UNAVAILABLE emptyGeoInput 90000) GEO_UNAVAILABLE emptyGeoInput
        400000) rfl (by decide) (by decide)]
    exact decide_eq_true_iff

/-- Witness for C4 (amended): an upsert with `GEO_OK` on the once-failed row
resets the count to 0, and one with `GEO_UNAVAILABLE` increments it to 1. -/
theorem retry_count_transitions_witness :
    (get_peer_geo (upsert_peer_geo c4FailOnce "198.51.100.9" "ipv4" GEO_OK
        emptyGeoInput 5000) "198.51.100.9").map GeoRow.geo_retry_count =
      some 0
  ∧ (get_peer_geo (upsert_peer_geo c4FailOnce "198.51.100.9" "ipv4"
        GEO_UNAVAILABLE emptyGeoInput 5000) "198.51.100.9").map
        GeoRow.geo_retry_count = some 1 := by
  constructor
  · exact (retry_count_transitions c4FailOnce "198.51.100.9" "ipv4" GEO_OK
      emptyGeoInput 5000).2.1
      (upsertInsertRow "ipv4" GEO_UNAVAILABLE emptyGeoInput 1000) rfl
      (by decide)
  · exact (retry_count_transitions c4FailOnce "198.51.100.9" "ipv4"
      GEO_UNAVAILABLE emptyGeoInput 5000).1
      (upsertInsertRow "ipv4" GEO_UNAVAILABLE emptyGeoInput 1000) rfl rfl

/-- C5 scenario: the persistent store already holds a fresh `GEO_OK` row for
the queued IP (the retry policy says do-not-retry). -/
def c5CachedState : LookupState :=
  { pending := ["9.9.9.9"], queue := [("9.9.9.9", "ipv4")]
    db := [("9.9.9.9", upsertInsertRow "ipv4" GEO_OK
             { emptyGeoInput with city := "Paris" } 100)]
    apiCalls := 0, sleeps := 0 }

/-- C5 counterexample: peerlist.py's worker does not consult the persistent
store before calling out — for a dequeued IP whose stored record is `GEO_OK`
(so `should_retry_geo` is false), it still performs the external call. -/
theorem worker_skips_store_check_cex :
    should_retry_geo c5CachedState.db 200 "9.9.9.9" = false
  ∧ (geo_lookup_worker_step c5CachedState 200 ApiOutcome.exception).apiCalls =
      c5CachedState.apiCalls + 1 := by
  exact ⟨rfl, rfl⟩

/-- C5 (amended): the store/backoff check lives on the producer side in
peerlist.py — `process_peers` enqueues a public IP only when it has no row or
`should_retry_geo` holds, and otherwise only refreshes `last_seen` — while
the worker calls the external API for every dequeued item.  In
MBCoreServer.py the worker does consult the persistent store first and, on
any hit, skips the external call and the delay, leaves the store untouched
and only mirrors the row into the session cache.  Either way, a second
`request_lookup` for an already-resolved IP performs no external call. -/
theorem cached_lookup_skips_external_call (s : LookupState)
    (ms : MBCore.WorkerState) (now : Nat) (nt ip : String) (old : GeoRow) :
    (get_peer_geo s.db ip = some old →
     should_retry_geo s.db now ip = false →
     is_public_address nt ip = true →
     process_peer_geo s now nt ip =
       { s with db := update_peer_seen s.db ip now })
  ∧ (∀ rest outcome, s.queue = (ip, nt) :: rest →
      (geo_lookup_worker_step s now outcome).apiCalls = s.apiCalls + 1)
  ∧ (∀ rest outcome row, ms.queue = (ip, nt) :: rest →
      MBCore.get_geo_from_db ms.geo_db_enabled ms.geo_db ip = some row →
      (MBCore.geo_worker_step ms now outcome).apiCalls = ms.apiCalls
    ∧ (MBCore.geo_worker_step ms now outcome).sleeps = ms.sleeps
    ∧ alookup (MBCore.geo_worker_step ms now outcome).session ip =
        some (MBCore.sessionOfDbRow row)
    ∧ (MBCore.geo_worker_step ms now outcome).geo_db = ms.geo_db) := by
  refine ⟨?_, ?_, ?_⟩
  · intro hrec hret hpub
    simp [process_peer_geo, hpub, hrec, hret]
  · intro rest outcome h
    cases hf : fetch_geo_api outcome <;> simp [geo_lookup_worker_step, h, hf]
  · intro rest outcome row hq hdb
    refine ⟨?_, ?_, ?_, ?_⟩ <;>
      simp [MBCore.geo_worker_step, hq, hdb, alookup_aset_self]

/-- Witness for C5 (amended): the producer-side gate refreshes `last_seen`
only, and an MBCoreServer.py store hit makes no external call. -/
theorem cached_lookup_skips_external_call_witness :
    process_peer_geo c5CachedState 200 "ipv4" "9.9.9.9" =
      { c5CachedState with
        db := update_peer_seen c5CachedState.db "9.9.9.9" 200 }
  ∧ (MBCore.geo_worker_step
      ⟨true, [("9.9.9.9", MBCore.rowOfApi blankApiData 5)], [], ["9.9.9.9"],
       [("9.9.9.9", "ipv4")], 0, 0⟩ 10 MBCore.ApiOutcome.exception).apiCalls
      = 0 := by
  constructor
  · exact (cached_lookup_skips_external_call c5CachedState
      ⟨true, [], [], [], [], 0, 0⟩ 200 "ipv4" "9.9.9.9"
      (upsertInsertRow "ipv4" GEO_OK { emptyGeoInput with city := "Paris" }
        100)).1 rfl rfl (by decide)
  · exact ((cached_lookup_skips_external_call c5CachedState
      ⟨true, [("9.9.9.9", MBCore.rowOfApi blankApiData 5)], [], ["9.9.9.9"],
       [("9.9.9.9", "ipv4")], 0, 0⟩ 10 "ipv4" "9.9.9.9"
      (upsertInsertRow "ipv4" GEO_OK emptyGeoInput 1)).2.2 []
      MBCore.ApiOutcome.exception (MBCore.rowOfApi blankApiData 5) rfl
      rfl).1

/-- For an UNAVAILABLE record, eligibility follows once 604800 s (the table
maximum) have elapsed since its last lookup, whatever its retry count. -/
theorem should_retry_geo_unavailable_after (db : GeoDB) (ip : String)
    (r : GeoRow) (h : get_peer_geo db ip = some r)
    (hs : r.geo_status = GEO_UNAVAILABLE) (t : Nat)
    (ht : (t : Int) - (r.geo_last_lookup : Int) ≥ 604800) :
    should_retry_geo db t ip = true := by
  rw [should_retry_geo_of_unstable db t ip r h
    (by rw [hs]; decide) (by rw [hs]; decide)]
  apply decide_eq_true
  have hle :=
    retry_interval_le (min r.geo_retry_count (RETRY_INTERVALS.length - 1))
  omega

/-- C9 scenario: the very first lookup of an IP fails. -/
def c9AfterFail : LookupState :=
  geo_lookup_worker_step
    ⟨["203.0.113.77"], [("203.0.113.77", "ipv4")], [], 0, 0⟩
    1000 ApiOutcome.exception

/-- C9 counterexample: a failed first lookup of an unseen IP is recorded as
`GEO_UNAVAILABLE` with `geo_retry_count = 0`, not an incremented 1 — the
INSERT path stores the schema default. -/
theorem unavailable_retry_increment_cex :
    (get_peer_geo c9AfterFail.db "203.0.113.77").map GeoRow.geo_status =
      some GEO_UNAVAILABLE
  ∧ (get_peer_geo c9AfterFail.db "203.0.113.77").map GeoRow.geo_retry_count =
      some 0
  ∧ (get_peer_geo c9AfterFail.db "203.0.113.77").map GeoRow.geo_retry_count ≠
      some 1 := by
  exact ⟨rfl, rfl, by decide⟩

/-- C9 (amended): `fetch_geo_api` swallows exceptions (timeout, malformed
body) and non-success statuses into `None` instead of raising; on `None` the
worker records the IP as `GEO_UNAVAILABLE` with `geo_last_lookup = now`,
incrementing `geo_retry_count` when a row already existed and storing the
schema default 0 on the first insert; the failure is never fatal and the IP
becomes eligible for retry once the (clamped) backoff interval elapses. -/
theorem failure_recorded_unavailable (s : LookupState) (now : Nat)
    (ip nt : String) (outcome : ApiOutcome) :
    fetch_geo_api ApiOutcome.exception = none
  ∧ (∀ d : GeoApiData, d.status ≠ "success" →
      fetch_geo_api (ApiOutcome.response d) = none)
  ∧ (∀ rest, s.queue = (ip, nt) :: rest → fetch_geo_api outcome = none →
      ((get_peer_geo (geo_lookup_worker_step s now outcome).db ip).map
          GeoRow.geo_status = some GEO_UNAVAILABLE
       ∧ (get_peer_geo (geo_lookup_worker_step s now outcome).db ip).map
          GeoRow.geo_retry_count = some
            (match get_peer_geo s.db ip with
             | some old => old.geo_retry_count + 1
             | none => 0)
       ∧ (∀ t : Nat, (t : Int) - (now : Int) ≥ 604800 →
            should_retry_geo (geo_lookup_worker_step s now outcome).db t ip =
              true))) := by
  refine ⟨rfl, ?_, ?_⟩
  · intro d hd
    simp [fetch_geo_api, hd]
  · intro rest hq hf
    have hstep : (geo_lookup_worker_step s now outcome).db =
        upsert_peer_geo s.db ip nt GEO_UNAVAILABLE emptyGeoInput now := by
      simp [geo_lookup_worker_step, hq, hf]
    rw [hstep]
    cases hg : get_peer_geo s.db ip with
    | none =>
      have key := get_peer_geo_upsert_none s.db ip nt GEO_UNAVAILABLE
        emptyGeoInput now hg
      refine ⟨by rw [key]; rfl, by rw [key]; rfl, ?_⟩
      intro t ht
      exact should_retry_geo_unavailable_after _ ip _ key rfl t ht
    | some old =>
      have key := get_peer_geo_upsert_some s.db ip nt GEO_UNAVAILABLE
        emptyGeoInput now old hg
      refine ⟨by rw [key]; rfl, by rw [key]; rfl, ?_⟩
      intro t ht
      exact should_retry_geo_unavailable_after _ ip _ key rfl t ht

/-- Witness for C9 (amended): a second failure on an already-failed IP
increments its count to 1, and the IP is eligible again 7 days later. -/
theorem failure_recorded_unavailable_witness :
    (get_peer_geo (geo_lookup_worker_step
        ⟨["198.51.100.40"], [("198.51.100.40", "ipv4")],
         [("198.51.100.40",
           upsertInsertRow "ipv4" GEO_UNAVAILABLE emptyGeoInput 10)], 0, 0⟩
        2000 ApiOutcome.exception).db "198.51.100.40").map
      GeoRow.geo_retry_count = some 1
  ∧ should_retry_geo (geo_lookup_worker_step
        ⟨["198.51.100.40"], [("198.51.100.40", "ipv4")],
         [("198.51.100.40",
           upsertInsertRow "ipv4" GEO_UNAVAILABLE emptyGeoInput 10)], 0, 0⟩
        2000 ApiOutcome.exception).db (2000 + 604800) "198.51.100.40" =
      true := by
  have h := (failure_recorded_unavailable
    ⟨["198.51.100.40"], [("198.51.100.40", "ipv4")],
     [("198.51.100.40",
       upsertInsertRow "ipv4" GEO_UNAVAILABLE emptyGeoInput 10)], 0, 0⟩
    2000 "198.51.100.40" "ipv4" ApiOutcome.exception).2.2 [] rfl rfl
  exact ⟨h.2.1, h.2.2 (2000 + 604800) (by decide)⟩

-- ═══════════════════════════════════════════════════════════════════════════
-- Lemmas about the refresh_worker disconnect phase
-- ═══════════════════════════════════════════════════════════════════════════

theorem handle_disconnected_fst (m : WebServer.PeerIdMap) (now : Nat)
    (pid : String) :
    (WebServer.handle_disconnected m now pid).fst = aremove m pid := by
  unfold WebServer.handle_disconnected
  cases alookup m pid <;> rfl

theorem handle_disconnected_snd_of_some (m : WebServer.PeerIdMap) (now : Nat)
    (pid : String) (pi : WebServer.PeerIdentity)
    (h : alookup m pid = some pi) :
    (WebServer.handle_disconnected m now pid).snd =
      { time := now, kind := "disconnected", ip := pi.ip, port := pi.port,
        network := pi.network } := by
  unfold WebServer.handle_disconnected
  rw [h]

theorem refresh_disconnects_fst_not_mem (now : Nat) :
    ∀ (gone : List String) (m : WebServer.PeerIdMap) (pid : String),
      pid ∉ gone →
      alookup (WebServer.refresh_disconnects m now gone).fst pid =
        alookup m pid := by
  intro gone
  induction gone with
  | nil => intro m pid _; rfl
  | cons q rest ih =>
    intro m pid h
    have hq : q ≠ pid := fun he => h (he ▸ List.mem_cons_self q rest)
    have hrest : pid ∉ rest := fun hm => h (List.mem_cons_of_mem q hm)
    show alookup (WebServer.refresh_disconnects
      (WebServer.handle_disconnected m now q).fst now rest).fst pid = _
    rw [ih _ pid hrest, handle_disconnected_fst,
      alookup_aremove_ne _ _ _ hq]

theorem refresh_disconnects_spec_aux (now : Nat) :
    ∀ (gone : List String) (m : WebServer.PeerIdMap) (pid : String)
      (pi : WebServer.PeerIdentity), gone.Nodup → pid ∈ gone →
      alookup m pid = some pi →
      ({ time := now, kind := "disconnected", ip := pi.ip, port := pi.port,
         network := pi.network } : WebServer.ChangeEvent) ∈
          (WebServer.refresh_disconnects m now gone).snd
    ∧ alookup (WebServer.refresh_disconnects m now gone).fst pid = none := by
  intro gone
  induction gone with
  | nil => intro m pid pi _ hmem _; cases hmem
  | cons q rest ih =>
    intro m pid pi hnd hmem hl
    obtain ⟨hqnotin, hndrest⟩ := List.nodup_cons.mp hnd
    rcases List.mem_cons.mp hmem with rfl | hmem2
    · constructor
      · show _ ∈ (WebServer.handle_disconnected m now pid).snd ::
          (WebServer.refresh_disconnects
            (WebServer.handle_disconnected m now pid).fst now rest).snd
        rw [handle_disconnected_snd_of_some m now pid pi hl]
        exact List.mem_cons_self _ _
      · show alookup (WebServer.refresh_disconnects
          (WebServer.handle_disconnected m now pid).fst now rest).fst pid =
            none
        rw [refresh_disconnects_fst_not_mem now rest _ pid hqnotin,
          handle_disconnected_fst, alookup_aremove_self]
    · have hq : q ≠ pid := fun he => hqnotin (he ▸ hmem2)
      have hl2 : alookup (WebServer.handle_disconnected m now q).fst pid =
          some pi := by
        rw [handle_disconnected_fst, alookup_aremove_ne _ _ _ hq]
        exact hl
      have step := ih (WebServer.handle_disconnected m now q).fst pid pi
        hndrest hmem2 hl2
      exact ⟨List.mem_cons_of_mem _ step.1, step.2⟩

/-- C8: for every peer id that was in the previous snapshot but is not in the
current one, the refresh worker emits a `disconnected` ChangeEvent carrying
the ip/port/network recalled from the `peer_ip_map` PeerIdentity entry, and
that entry is popped when consumed, so the map cannot grow without bound. -/
theorem disconnect_event_recalls_identity (m : WebServer.PeerIdMap)
    (now : Nat) (previous current : List String) (pid : String)
    (pi : WebServer.PeerIdentity) (hnd : previous.Nodup)
    (hprev : pid ∈ previous) (hcur : pid ∉ current)
    (hl : alookup m pid = some pi) :
    ({ time := now, kind := "disconnected", ip := pi.ip, port := pi.port,
       network := pi.network } : WebServer.ChangeEvent) ∈
      (WebServer.refresh_disconnects m now
        (WebServer.departedIds previous current)).snd
  ∧ alookup (WebServer.refresh_disconnects m now
      (WebServer.departedIds previous current)).fst pid = none := by
  apply refresh_disconnects_spec_aux now (WebServer.departedIds previous
    current) m pid pi
  · exact List.Nodup.filter _ hnd
  · simp [WebServer.departedIds, List.mem_filter, hprev, hcur]
  · exact hl

/-- Witness for C8: peer id "42" disconnects between two snapshots; the event
still carries its address, and the map entry is gone afterwards. -/
theorem disconnect_event_recalls_identity_witness :
    ({ time := 900, kind := "disconnected", ip := "203.0.113.42",
       port := "8333", network := "ipv4" } : WebServer.ChangeEvent) ∈
      (WebServer.refresh_disconnects
        [("42", ⟨"203.0.113.42", "8333", "ipv4"⟩)] 900
        (WebServer.departedIds ["42", "7"] ["7"])).snd
  ∧ alookup (WebServer.refresh_disconnects
      [("42", ⟨"203.0.113.42", "8333", "ipv4"⟩)] 900
      (WebServer.departedIds ["42", "7"] ["7"])).fst "42" = none := by
  exact disconnect_event_recalls_identity
    [("42", ⟨"203.0.113.42", "8333", "ipv4"⟩)] 900 ["42", "7"] ["7"] "42"
    ⟨"203.0.113.42", "8333", "ipv4"⟩ (by decide) (by decide) (by decide) rfl
